import Mathlib

/-!
Verification of the drift-detection and model-promotion decision logic of the
`prefect_flows` repository against its specification.

The embedding follows the two source files that hold the decision core:

* `flows/evaluate_pipeline.py` — the promotion gate
  (`print_and_compare_metrics`), the incumbent lookup
  (`get_production_run_info`) and the registry promotion
  (`promote_model_to_production`);
* `flows/weekly_data_ingest_and_drift.py` — the drift check (`detect_drift`).

Python floats are modelled by `ℚ` (all literals in the source, such as `0.02`
or `0.67`, are exact decimal fractions).  Python dicts of metrics are modelled
as `String → Option ℚ`; `dict.get(k, d)` becomes `(m k).getD d`.  External
collaborators (the mlflow registry client, S3, PIL/numpy statistic extraction,
scipy's `ks_2samp`) appear as explicit inputs: lists of registry entries for
the registry, and an environment of oracle functions for the drift check.
Python exceptions are modelled by `Except String`.
-/

/-! ### Metric mappings and the promotion gate (`evaluate_pipeline.py`) -/

/-- A run's metric dictionary, as fetched by `get_latest_metrics_for_run`:
a partial mapping from metric name to numeric value. -/
def Metrics : Type := String → Option ℚ

/-- Python's `d.get(k, default)`. -/
def dictGet (m : Metrics) (k : String) (d : ℚ) : ℚ := (m k).getD d

/-- Embedding of `print_and_compare_metrics` (evaluate_pipeline.py lines
26-80), logging elided: extract the four named metrics with default `0.0`,
compare deltas against the fixed thresholds, and return the promotion
decision `mAP50-95 passed AND (mAP50 passed OR precision passed OR recall
passed)`. -/
def print_and_compare_metrics (incoming_metrics prod_metrics : Metrics) : Bool :=
  let inc_map50_95 := dictGet incoming_metrics "metrics/mAP50-95B" 0
  let prod_map50_95 := dictGet prod_metrics "metrics/mAP50-95B" 0
  let inc_map50 := dictGet incoming_metrics "metrics/mAP50B" 0
  let prod_map50 := dictGet prod_metrics "metrics/mAP50B" 0
  let inc_precision := dictGet incoming_metrics "metrics/precisionB" 0
  let prod_precision := dictGet prod_metrics "metrics/precisionB" 0
  let inc_recall := dictGet incoming_metrics "metrics/recallB" 0
  let prod_recall := dictGet prod_metrics "metrics/recallB" 0
  let map50_95_diff := inc_map50_95 - prod_map50_95
  let map50_diff := inc_map50 - prod_map50
  let precision_diff := inc_precision - prod_precision
  let recall_diff := inc_recall - prod_recall
  let map50_95_passed := decide (map50_95_diff ≥ 0.02)
  let map50_passed := decide (map50_diff ≥ 0.02)
  let precision_passed := decide (precision_diff ≥ 0.01)
  let recall_passed := decide (recall_diff ≥ 0.01)
  let other_metric_passed := map50_passed || precision_passed || recall_passed
  map50_95_passed && other_metric_passed

/-- The four metric keys consulted by the promotion gate. -/
def gateKeys : List String :=
  ["metrics/mAP50-95B", "metrics/mAP50B", "metrics/precisionB", "metrics/recallB"]

/-- A metric mapping with no entry at all (every key absent). -/
def emptyMetrics : Metrics := fun _ => none

/-- Override a metric mapping so that key `k` holds the value `0.0`. -/
def setZero (m : Metrics) (k : String) : Metrics :=
  fun j => if j = k then some 0 else m j

/-- Challenger metrics that beat the incumbent below by exactly the
thresholds: `mAP50-95` delta exactly `0.02`, `precision` delta exactly
`0.01`. -/
def boundary_incoming : Metrics := fun k =>
  if k = "metrics/mAP50-95B" then some 0.52
  else if k = "metrics/mAP50B" then some 0.50
  else if k = "metrics/precisionB" then some 0.41
  else if k = "metrics/recallB" then some 0.40
  else none

/-- Incumbent metrics for the boundary scenario. -/
def boundary_prod : Metrics := fun k =>
  if k = "metrics/mAP50-95B" then some 0.50
  else if k = "metrics/mAP50B" then some 0.50
  else if k = "metrics/precisionB" then some 0.40
  else if k = "metrics/recallB" then some 0.40
  else none

/-! ### The model registry (`evaluate_pipeline.py`) -/

/-- One entry of the external mlflow model registry, with the fields the
source reads: model name, version number, stage, and originating run id. -/
structure ModelVersion where
  name : String
  version : Nat
  current_stage : String
  run_id : String
deriving DecidableEq, Repr

/-- Model of the external registry query
`client.get_latest_versions(model_name, stages=[...])`: the registered
versions of the model whose stage lies in `stages` (registry order kept). -/
def get_latest_versions (registry : List ModelVersion) (model_name : String)
    (stages : List String) : List ModelVersion :=
  registry.filter (fun mv => mv.name == model_name && stages.contains mv.current_stage)

/-- Embedding of `get_production_run_info` (evaluate_pipeline.py lines
17-23): query the Production-stage versions; raise `ValueError` when there is
none, otherwise return the first one's run id and version. -/
def get_production_run_info (registry : List ModelVersion) (model_name : String) :
    Except String (String × Nat) :=
  match get_latest_versions registry model_name ["Production"] with
  | [] => .error ("No version found for model '" ++ model_name ++ "' in stage 'Production'")
  | mv :: _ => .ok (mv.run_id, mv.version)

/-- One stage-transition call issued against the external registry
(`client.transition_model_version_stage`). -/
structure RegAction where
  name : String
  version : Nat
  stage : String
  archive_existing_versions : Bool
deriving DecidableEq, Repr

/-- Model of the external query `client.search_model_versions(f"name='{m}'")`:
all registered versions of the model. -/
def search_model_versions (registry : List ModelVersion) (model_name : String) :
    List ModelVersion :=
  registry.filter (fun mv => mv.name == model_name)

/-- Embedding of `promote_model_to_production` (evaluate_pipeline.py lines
82-118).  The first component is the trace of stage-transition calls issued
against the registry, in order; the second is the returned version, or the
`ValueError` raised when no version of the model matches the incoming run id
(the Python `for` loop takes the first match, i.e. `List.find?`). -/
def promote_model_to_production (registry : List ModelVersion)
    (incoming_run_id model_name : String) (current_prod_version : Nat) :
    List RegAction × Except String Nat :=
  let all_versions := search_model_versions registry model_name
  match all_versions.find? (fun mv => mv.run_id == incoming_run_id) with
  | none => ([], .error ("Could not find model version for run_id " ++ incoming_run_id))
  | some mv =>
      ([⟨model_name, current_prod_version, "Archived", false⟩,
        ⟨model_name, mv.version, "Production", false⟩],
       .ok mv.version)

def prodRegistry : List ModelVersion := [⟨"m", 1, "Production", "r1"⟩]

def promoRegistry : List ModelVersion :=
  [⟨"m", 3, "Production", "r1"⟩, ⟨"m", 5, "None", "r2"⟩]

/-! ### Drift detection (`weekly_data_ingest_and_drift.py`) -/

/-- `startsWithL sub l` : `l` begins with `sub` (character lists). -/
def startsWithL : List Char → List Char → Bool
  | [], _ => true
  | _ :: _, [] => false
  | a :: as, b :: bs => a == b && startsWithL as bs

/-- Python's `sub in s` on strings, as character lists. -/
def hasSubL (sub : List Char) : List Char → Bool
  | [] => startsWithL sub []
  | b :: bs => startsWithL sub (b :: bs) || hasSubL sub bs

/-- Python's `s.endswith(sub)`, as character lists. -/
def endsWithL (sub l : List Char) : Bool := startsWithL sub.reverse l.reverse

/-- Python's `s.lower()`. -/
def strLower (s : String) : String := ⟨s.data.map Char.toLower⟩

/-- The candidate-file test `'/images/' in f` of detect_drift (lines 179 and
241). -/
def isImageFile (f : String) : Bool := hasSubL "/images/".data f.data

/-- The baseline-key test
`obj['Key'].lower().endswith(('.jpg', '.jpeg', '.png'))` (line 202). -/
def isBaselineImage (k : String) : Bool :=
  let lk := (strLower k).data
  endsWithL ".jpg".data lk || endsWithL ".jpeg".data lk || endsWithL ".png".data lk

/-- The five per-image summary statistics produced by the inner helper
`get_image_properties` (lines 212-234). -/
structure ImageProps where
  brightness : ℚ
  contrast : ℚ
  r_mean : ℚ
  g_mean : ℚ
  b_mean : ℚ
deriving DecidableEq, Repr, Inhabited

/-- A Python list comprehension `[f(a) for a in l]` whose body may raise:
evaluated left to right, the first exception propagates. -/
def mapME {α β : Type} (f : α → Except String β) : List α → Except String (List β)
  | [] => .ok []
  | a :: as =>
    match f a with
    | .error e => .error e
    | .ok b =>
      match mapME f as with
      | .error e => .error e
      | .ok bs => .ok (b :: bs)

/-- The environment `detect_drift` runs in.  Each field is one external
effect of the source, made explicit:

* `baselineListing` — the S3 listing of `datasets/baseline/train/`
  (lines 191-198): an exception, a response without `'Contents'` (`none`),
  or the list of keys;
* `sample` — `random.sample(population, k)` (line 207): the subsample the
  unseeded RNG happens to draw this run;
* `getProps` — `get_image_properties` for a key (lines 212-234): the
  fetch + decode + statistic extraction, which may raise;
* `ks_2samp` — scipy's two-sample Kolmogorov-Smirnov test (line 251),
  returning `(statistic, pvalue)`. -/
structure DriftEnv where
  baselineListing : Except String (Option (List String))
  sample : List String → Nat → List String
  getProps : String → Except String ImageProps
  ks_2samp : List ℚ → List ℚ → ℚ × ℚ

/-- `[f for f in processed_files if '/images/' in f]` (lines 179, 241);
its length is `num_images`. -/
def weekly_images (processed_files : List String) : List String :=
  processed_files.filter isImageFile

/-- The baseline keys kept by the extension filter (lines 200-203). -/
def baseline_images (contents : List String) : List String :=
  contents.filter isBaselineImage

/-- The baseline subsampling of lines 205-209: subsample only when the
baseline pool is strictly larger than the candidate count. -/
def baseline_sample (env : DriftEnv) (contents processed_files : List String) :
    List String :=
  if (weekly_images processed_files).length < (baseline_images contents).length then
    env.sample (baseline_images contents) (weekly_images processed_files).length
  else baseline_images contents

/-- Lines 245-267: one KS test per statistic, in the fixed order
`brightness, contrast, r_mean, g_mean, b_mean`; the score is the mean of the
five statistics, the verdict is `any pvalue < 0.05`. -/
def drift_report (ks : List ℚ → List ℚ → ℚ × ℚ) (bp wp : List ImageProps) :
    Bool × ℚ :=
  (decide ((ks (bp.map ImageProps.brightness) (wp.map ImageProps.brightness)).2 < 0.05) ||
      decide ((ks (bp.map ImageProps.contrast) (wp.map ImageProps.contrast)).2 < 0.05) ||
      decide ((ks (bp.map ImageProps.r_mean) (wp.map ImageProps.r_mean)).2 < 0.05) ||
      decide ((ks (bp.map ImageProps.g_mean) (wp.map ImageProps.g_mean)).2 < 0.05) ||
      decide ((ks (bp.map ImageProps.b_mean) (wp.map ImageProps.b_mean)).2 < 0.05),
    ((ks (bp.map ImageProps.brightness) (wp.map ImageProps.brightness)).1 +
        (ks (bp.map ImageProps.contrast) (wp.map ImageProps.contrast)).1 +
        (ks (bp.map ImageProps.r_mean) (wp.map ImageProps.r_mean)).1 +
        (ks (bp.map ImageProps.g_mean) (wp.map ImageProps.g_mean)).1 +
        (ks (bp.map ImageProps.b_mean) (wp.map ImageProps.b_mean)).1) / 5)

/-- The body of the `try` block of `detect_drift` (lines 188-267), with the
exception propagation of each step made explicit. -/
def detect_drift_stat (env : DriftEnv) (processed_files : List String) :
    Except String (Bool × ℚ) :=
  match env.baselineListing with
  | .error e => .error e
  | .ok none => .ok (false, 0)
  | .ok (some contents) =>
    match mapME env.getProps (baseline_sample env contents processed_files) with
    | .error e => .error e
    | .ok baseline_props =>
      match mapME env.getProps (weekly_images processed_files) with
      | .error e => .error e
      | .ok weekly_props => .ok (drift_report env.ks_2samp baseline_props weekly_props)

/-- Embedding of `detect_drift` (lines 168-272): override short-circuit,
minimum-size gate, then the statistical path with its `except` handler that
turns any raised error into `(False, 0.0)`. -/
def detect_drift (env : DriftEnv) (processed_files : List String)
    (override_drift : Option Bool) : Bool × ℚ :=
  match override_drift with
  | some true => (true, 0.67)
  | some false => (false, 0.32)
  | none =>
    if (weekly_images processed_files).length < 30 then (false, 0)
    else
      match detect_drift_stat env processed_files with
      | .ok r => r
      | .error _ => (false, 0)

def trivialEnv : DriftEnv :=
  ⟨.ok none, fun l _ => l, fun _ => .ok default, fun _ _ => (0, 1)⟩

def smallBatch : List String := List.replicate 25 "weekly/images/a.jpg"

def failEnv : DriftEnv :=
  ⟨.ok (some ["b.jpg"]), fun l _ => l, fun _ => .error "boom", fun _ _ => (0, 1)⟩

def bigBatch : List String := List.replicate 30 "weekly/images/a.jpg"

def p1 : ImageProps := ⟨1, 1, 1, 1, 1⟩

def okEnv : DriftEnv :=
  ⟨.ok (some ["b.jpg"]), fun l n => l.take n, fun _ => .ok p1, fun _ _ => (0.5, 0.1)⟩

/-! ### Sampler nondeterminism and order invariance -/

/-- The value a fallible computation produced, when it succeeded. -/
def okValue {β : Type} [Inhabited β] (f : String → Except String β) (a : String) : β :=
  match f a with
  | .ok b => b
  | .error _ => default

/-- `ks_2samp` only depends on the two samples as multisets: the empirical
distribution functions, hence the KS statistic and p-value, ignore input
order. -/
def ksPermInvariant (ks : List ℚ → List ℚ → ℚ × ℚ) : Prop :=
  ∀ a a' b b' : List ℚ, a.Perm a' → b.Perm b' → ks a b = ks a' b'

/-- `random.sample(l, n)` draws `n` distinct positions: the draw has length
`n` and is a sub-permutation of the population. -/
def validSampler (s : List String → Nat → List String) : Prop :=
  ∀ l n, n ≤ l.length → (s l n).length = n ∧ (s l n).Subperm l

/-- The results `detect_drift` can produce for some draw of the unseeded
baseline subsample, all other effects fixed. -/
def driftResults (listing : Except String (Option (List String)))
    (getProps : String → Except String ImageProps)
    (ks : List ℚ → List ℚ → ℚ × ℚ) (processed_files : List String)
    (override_drift : Option Bool) : Set (Bool × ℚ) :=
  { r | ∃ s, validSampler s ∧
      detect_drift ⟨listing, s, getProps, ks⟩ processed_files override_drift = r }

def gp0 : String → Except String ImageProps := fun _ => .ok default

def ks0 : List ℚ → List ℚ → ℚ × ℚ := fun _ _ => (0, 1)

/-! ### Helper lemmas -/

lemma dictGet_setZero (m : Metrics) (k j : String) (h : m k = none) :
    dictGet (setZero m k) j 0 = dictGet m j 0 := by
  by_cases hj : j = k
  · subst hj; simp [dictGet, setZero, h]
  · simp [dictGet, setZero, hj]

lemma detect_drift_stat_listing (env : DriftEnv) (pf contents : List String)
    (hl : env.baselineListing = .ok (some contents)) :
    detect_drift_stat env pf =
      match mapME env.getProps (baseline_sample env contents pf) with
      | .error e => .error e
      | .ok bp =>
        match mapME env.getProps (weekly_images pf) with
        | .error e => .error e
        | .ok wp => .ok (drift_report env.ks_2samp bp wp) := by
  unfold detect_drift_stat
  rw [hl]

lemma detect_drift_of_stat (env : DriftEnv) (pf : List String)
    (h30 : ¬ (weekly_images pf).length < 30) :
    detect_drift env pf none =
      (match detect_drift_stat env pf with
       | .ok r => r
       | .error _ => (false, 0)) := by
  simp only [detect_drift]
  rw [if_neg h30]

lemma mapME_ok_of_forall {β : Type} [Inhabited β] (f : String → Except String β)
    (l : List String) (h : ∀ a ∈ l, ∃ b, f a = .ok b) :
    mapME f l = .ok (l.map (okValue f)) := by
  induction l with
  | nil => rfl
  | cons a as ih =>
    obtain ⟨b, hb⟩ := h a (List.mem_cons_self a as)
    have ih' := ih (fun x hx => h x (List.mem_cons_of_mem a hx))
    simp only [mapME, hb, ih', List.map_cons, okValue]

lemma mapME_ok_forall {β : Type} (f : String → Except String β) :
    ∀ (l : List String) (v : List β), mapME f l = .ok v → ∀ a ∈ l, ∃ b, f a = .ok b := by
  intro l
  induction l with
  | nil =>
    intro v _ a ha
    exact absurd ha (List.not_mem_nil a)
  | cons x xs ih =>
    intro v hv a ha
    cases hfx : f x with
    | error e =>
      simp only [mapME, hfx] at hv
      cases hv
    | ok b =>
      simp only [mapME, hfx] at hv
      cases hrest : mapME f xs with
      | error e => rw [hrest] at hv; cases hv
      | ok bs =>
        rw [hrest] at hv
        rcases List.mem_cons.mp ha with rfl | hmem
        · exact ⟨b, hfx⟩
        · exact ih bs hrest a hmem

lemma mapME_perm {β : Type} [Inhabited β] (f : String → Except String β)
    {l l' : List String} (h : l.Perm l') :
    (∃ e e', mapME f l = .error e ∧ mapME f l' = .error e') ∨
    (∃ v v', mapME f l = .ok v ∧ mapME f l' = .ok v' ∧ v.Perm v') := by
  by_cases hall : ∀ a ∈ l, ∃ b, f a = .ok b
  · exact Or.inr ⟨_, _, mapME_ok_of_forall f l hall,
      mapME_ok_of_forall f l' (fun a ha => hall a (h.mem_iff.mpr ha)),
      h.map (okValue f)⟩
  · left
    have h1 : ∀ v, mapME f l ≠ .ok v := fun v hv => hall (mapME_ok_forall f l v hv)
    have h2 : ∀ v, mapME f l' ≠ .ok v := fun v hv =>
      hall (fun a ha => mapME_ok_forall f l' v hv a (h.mem_iff.mp ha))
    cases he : mapME f l with
    | error e =>
      cases he' : mapME f l' with
      | error e' => exact ⟨e, e', rfl, rfl⟩
      | ok v' => exact absurd he' (h2 v')
    | ok v => exact absurd he (h1 v)

lemma drift_report_perm {ks : List ℚ → List ℚ → ℚ × ℚ} (hks : ksPermInvariant ks)
    {bp bp' wp wp' : List ImageProps} (hb : bp.Perm bp') (hw : wp.Perm wp') :
    drift_report ks bp wp = drift_report ks bp' wp' := by
  unfold drift_report
  rw [hks _ _ _ _ (hb.map ImageProps.brightness) (hw.map ImageProps.brightness),
    hks _ _ _ _ (hb.map ImageProps.contrast) (hw.map ImageProps.contrast),
    hks _ _ _ _ (hb.map ImageProps.r_mean) (hw.map ImageProps.r_mean),
    hks _ _ _ _ (hb.map ImageProps.g_mean) (hw.map ImageProps.g_mean),
    hks _ _ _ _ (hb.map ImageProps.b_mean) (hw.map ImageProps.b_mean)]

lemma driftResults_le (getProps : String → Except String ImageProps)
    (ks : List ℚ → List ℚ → ℚ × ℚ) {contents contents' pf pf' : List String}
    (o : Option Bool) (hks : ksPermInvariant ks)
    (hc : contents.Perm contents') (hp : pf.Perm pf') :
    driftResults (.ok (some contents)) getProps ks pf o ⊆
      driftResults (.ok (some contents')) getProps ks pf' o := by
  intro r hrr
  simp only [driftResults, Set.mem_setOf_eq] at hrr ⊢
  obtain ⟨s, hs, hr⟩ := hrr
  match o with
  | some true => exact ⟨s, hs, hr⟩
  | some false => exact ⟨s, hs, hr⟩
  | none =>
    have hlen : (weekly_images pf).length = (weekly_images pf').length :=
      (hp.filter isImageFile).length_eq
    by_cases h30 : (weekly_images pf).length < 30
    · have h30' : (weekly_images pf').length < 30 := hlen ▸ h30
      refine ⟨s, hs, ?_⟩
      have e2 : detect_drift ⟨.ok (some contents'), s, getProps, ks⟩ pf' none = (false, 0) := by
        simp only [detect_drift]
        rw [if_pos h30']
      have e1 : detect_drift ⟨.ok (some contents), s, getProps, ks⟩ pf none = (false, 0) := by
        simp only [detect_drift]
        rw [if_pos h30]
      rw [e2, ← hr, e1]
    · have h30' : ¬ (weekly_images pf').length < 30 := by
        rw [← hlen]; exact h30
      have hbi : (baseline_images contents).Perm (baseline_images contents') :=
        hc.filter isBaselineImage
      have hbl : (baseline_images contents).length = (baseline_images contents').length :=
        hbi.length_eq
      by_cases hsub : (weekly_images pf).length < (baseline_images contents).length
      · -- the baseline pool is subsampled: reuse the very draw the left run made
        obtain ⟨hbs_len, hbs_sub⟩ :=
          hs (baseline_images contents) (weekly_images pf).length (Nat.le_of_lt hsub)
        set s' : List String → Nat → List String := fun l m =>
          if l = baseline_images contents' ∧ m = (weekly_images pf').length then
            s (baseline_images contents) (weekly_images pf).length
          else s l m with hsdef
        refine ⟨s', ?_, ?_⟩
        · intro l m hm
          rw [hsdef]
          dsimp only
          by_cases hcond : l = baseline_images contents' ∧ m = (weekly_images pf').length
          · rw [if_pos hcond]
            obtain ⟨hl', hm'⟩ := hcond
            subst hl'
            subst hm'
            exact ⟨hbs_len.trans hlen, hbs_sub.trans hbi.subperm⟩
          · rw [if_neg hcond]
            exact hs l m hm
        · have hsA : baseline_sample ⟨.ok (some contents), s, getProps, ks⟩ contents pf =
              s (baseline_images contents) (weekly_images pf).length := by
            unfold baseline_sample
            rw [if_pos hsub]
          have hsB : baseline_sample ⟨.ok (some contents'), s', getProps, ks⟩ contents' pf' =
              s (baseline_images contents) (weekly_images pf).length := by
            unfold baseline_sample
            rw [if_pos (by rw [← hlen, ← hbl]; exact hsub)]
            rw [hsdef]
            exact if_pos ⟨rfl, rfl⟩
          have hA : detect_drift_stat ⟨.ok (some contents), s, getProps, ks⟩ pf =
              match mapME getProps (s (baseline_images contents) (weekly_images pf).length) with
              | .error e => .error e
              | .ok bp =>
                match mapME getProps (weekly_images pf) with
                | .error e => .error e
                | .ok wp => .ok (drift_report ks bp wp) := by
            rw [detect_drift_stat_listing _ pf contents rfl, hsA]
          have hB : detect_drift_stat ⟨.ok (some contents'), s', getProps, ks⟩ pf' =
              match mapME getProps (s (baseline_images contents) (weekly_images pf).length) with
              | .error e => .error e
              | .ok bp =>
                match mapME getProps (weekly_images pf') with
                | .error e => .error e
                | .ok wp => .ok (drift_report ks bp wp) := by
            rw [detect_drift_stat_listing _ pf' contents' rfl, hsB]
          cases hmb : mapME getProps (s (baseline_images contents) (weekly_images pf).length) with
          | error e =>
            have eA : detect_drift ⟨.ok (some contents), s, getProps, ks⟩ pf none = (false, 0) := by
              rw [detect_drift_of_stat _ pf h30, hA, hmb]
            have eB : detect_drift ⟨.ok (some contents'), s', getProps, ks⟩ pf' none =
                (false, 0) := by
              rw [detect_drift_of_stat _ pf' h30', hB, hmb]
            rw [eB, ← hr, eA]
          | ok bp =>
            have hpw : (weekly_images pf).Perm (weekly_images pf') := hp.filter isImageFile
            rcases mapME_perm getProps hpw with
              ⟨e, e', he, he'⟩ | ⟨wv, wv', hwv, hwv', hwp⟩
            · have eA : detect_drift ⟨.ok (some contents), s, getProps, ks⟩ pf none =
                  (false, 0) := by
                rw [detect_drift_of_stat _ pf h30, hA, hmb, he]
              have eB : detect_drift ⟨.ok (some contents'), s', getProps, ks⟩ pf' none =
                  (false, 0) := by
                rw [detect_drift_of_stat _ pf' h30', hB, hmb, he']
              rw [eB, ← hr, eA]
            · have eA : detect_drift ⟨.ok (some contents), s, getProps, ks⟩ pf none =
                  drift_report ks bp wv := by
                rw [detect_drift_of_stat _ pf h30, hA, hmb, hwv]
              have eB : detect_drift ⟨.ok (some contents'), s', getProps, ks⟩ pf' none =
                  drift_report ks bp wv' := by
                rw [detect_drift_of_stat _ pf' h30', hB, hmb, hwv']
              rw [eB, ← hr, eA]
              exact (drift_report_perm hks (List.Perm.refl bp) hwp).symm
      · -- the full baseline pool is used on both sides
        have hsub' : ¬ (weekly_images pf').length < (baseline_images contents').length := by
          rw [← hlen, ← hbl]; exact hsub
        refine ⟨s, hs, ?_⟩
        have hsA : baseline_sample ⟨.ok (some contents), s, getProps, ks⟩ contents pf =
            baseline_images contents := by
          unfold baseline_sample
          rw [if_neg hsub]
        have hsB : baseline_sample ⟨.ok (some contents'), s, getProps, ks⟩ contents' pf' =
            baseline_images contents' := by
          unfold baseline_sample
          rw [if_neg hsub']
        have hA : detect_drift_stat ⟨.ok (some contents), s, getProps, ks⟩ pf =
            match mapME getProps (baseline_images contents) with
            | .error e => .error e
            | .ok bp =>
              match mapME getProps (weekly_images pf) with
              | .error e => .error e
              | .ok wp => .ok (drift_report ks bp wp) := by
          rw [detect_drift_stat_listing _ pf contents rfl, hsA]
        have hB : detect_drift_stat ⟨.ok (some contents'), s, getProps, ks⟩ pf' =
            match mapME getProps (baseline_images contents') with
            | .error e => .error e
            | .ok bp =>
              match mapME getProps (weekly_images pf') with
              | .error e => .error e
              | .ok wp => .ok (drift_report ks bp wp) := by
          rw [detect_drift_stat_listing _ pf' contents' rfl, hsB]
        rcases mapME_perm getProps hbi with
          ⟨e, e', he, he'⟩ | ⟨bv, bv', hbv, hbv', hbperm⟩
        · have eA : detect_drift ⟨.ok (some contents), s, getProps, ks⟩ pf none =
              (false, 0) := by
            rw [detect_drift_of_stat _ pf h30, hA, he]
          have eB : detect_drift ⟨.ok (some contents'), s, getProps, ks⟩ pf' none =
              (false, 0) := by
            rw [detect_drift_of_stat _ pf' h30', hB, he']
          rw [eB, ← hr, eA]
        · have hpw : (weekly_images pf).Perm (weekly_images pf') := hp.filter isImageFile
          rcases mapME_perm getProps hpw with
            ⟨e, e', he, he'⟩ | ⟨wv, wv', hwv, hwv', hwp⟩
          · have eA : detect_drift ⟨.ok (some contents), s, getProps, ks⟩ pf none =
                (false, 0) := by
              rw [detect_drift_of_stat _ pf h30, hA, hbv, he]
            have eB : detect_drift ⟨.ok (some contents'), s, getProps, ks⟩ pf' none =
                (false, 0) := by
              rw [detect_drift_of_stat _ pf' h30', hB, hbv', he']
            rw [eB, ← hr, eA]
          · have eA : detect_drift ⟨.ok (some contents), s, getProps, ks⟩ pf none =
                drift_report ks bv wv := by
              rw [detect_drift_of_stat _ pf h30, hA, hbv, hwv]
            have eB : detect_drift ⟨.ok (some contents'), s, getProps, ks⟩ pf' none =
                drift_report ks bv' wv' := by
              rw [detect_drift_of_stat _ pf' h30', hB, hbv', hwv']
            rw [eB, ← hr, eA]
            exact (drift_report_perm hks hbperm hwp).symm

/-! ### The claims -/

/-- C1: for every pair of metric mappings the promotion gate
`print_and_compare_metrics` returns `true` iff the mAP50-95 delta is at
least `0.02` and at least one of the mAP50 delta (`≥ 0.02`), precision delta
(`≥ 0.01`), recall delta (`≥ 0.01`) passes; and, at the boundary pair whose
deltas are exactly `0.02` and `0.01`, the gate passes (`≥`, not `>`). -/
theorem promotion_gate_iff :
    (∀ inc prod : Metrics,
        print_and_compare_metrics inc prod = true ↔
          ((inc "metrics/mAP50-95B").getD 0 - (prod "metrics/mAP50-95B").getD 0 ≥ 0.02 ∧
            ((inc "metrics/mAP50B").getD 0 - (prod "metrics/mAP50B").getD 0 ≥ 0.02 ∨
              (inc "metrics/precisionB").getD 0 - (prod "metrics/precisionB").getD 0 ≥ 0.01 ∨
              (inc "metrics/recallB").getD 0 - (prod "metrics/recallB").getD 0 ≥ 0.01))) ∧
      print_and_compare_metrics boundary_incoming boundary_prod = true := by
  have h : ∀ inc prod : Metrics,
      print_and_compare_metrics inc prod = true ↔
        ((inc "metrics/mAP50-95B").getD 0 - (prod "metrics/mAP50-95B").getD 0 ≥ 0.02 ∧
          ((inc "metrics/mAP50B").getD 0 - (prod "metrics/mAP50B").getD 0 ≥ 0.02 ∨
            (inc "metrics/precisionB").getD 0 - (prod "metrics/precisionB").getD 0 ≥ 0.01 ∨
            (inc "metrics/recallB").getD 0 - (prod "metrics/recallB").getD 0 ≥ 0.01)) := by
    intro inc prod
    simp only [print_and_compare_metrics, dictGet, Bool.and_eq_true, Bool.or_eq_true,
      decide_eq_true_eq]
    tauto
  refine ⟨h, (h _ _).mpr ?_⟩
  have e1 : boundary_incoming "metrics/mAP50-95B" = some 0.52 := rfl
  have e2 : boundary_prod "metrics/mAP50-95B" = some 0.50 := rfl
  have e3 : boundary_incoming "metrics/precisionB" = some 0.41 := rfl
  have e4 : boundary_prod "metrics/precisionB" = some 0.40 := rfl
  rw [e1, e2, e3, e4]
  refine ⟨by norm_num, Or.inr (Or.inl (by norm_num))⟩

/-- C2: when the statistical path of `detect_drift` runs (no override, at
least 30 candidate images, baseline listing present, no extraction failure),
the verdict is `true` iff at least one of the five KS p-values (brightness,
contrast, r_mean, g_mean, b_mean) is strictly below `0.05`, and the score is
the unweighted arithmetic mean of exactly the five KS statistics. -/
theorem drift_verdict_and_score (env : DriftEnv) (contents processed_files : List String)
    (bp wp : List ImageProps)
    (hl : env.baselineListing = .ok (some contents))
    (hn : 30 ≤ (weekly_images processed_files).length)
    (hb : mapME env.getProps (baseline_sample env contents processed_files) = .ok bp)
    (hw : mapME env.getProps (weekly_images processed_files) = .ok wp) :
    ((detect_drift env processed_files none).1 = true ↔
      ((env.ks_2samp (bp.map ImageProps.brightness) (wp.map ImageProps.brightness)).2 < 0.05 ∨
        (env.ks_2samp (bp.map ImageProps.contrast) (wp.map ImageProps.contrast)).2 < 0.05 ∨
        (env.ks_2samp (bp.map ImageProps.r_mean) (wp.map ImageProps.r_mean)).2 < 0.05 ∨
        (env.ks_2samp (bp.map ImageProps.g_mean) (wp.map ImageProps.g_mean)).2 < 0.05 ∨
        (env.ks_2samp (bp.map ImageProps.b_mean) (wp.map ImageProps.b_mean)).2 < 0.05)) ∧
      (detect_drift env processed_files none).2 =
        ((env.ks_2samp (bp.map ImageProps.brightness) (wp.map ImageProps.brightness)).1 +
          (env.ks_2samp (bp.map ImageProps.contrast) (wp.map ImageProps.contrast)).1 +
          (env.ks_2samp (bp.map ImageProps.r_mean) (wp.map ImageProps.r_mean)).1 +
          (env.ks_2samp (bp.map ImageProps.g_mean) (wp.map ImageProps.g_mean)).1 +
          (env.ks_2samp (bp.map ImageProps.b_mean) (wp.map ImageProps.b_mean)).1) / 5 := by
  have hstat : detect_drift_stat env processed_files =
      .ok (drift_report env.ks_2samp bp wp) := by
    rw [detect_drift_stat_listing env processed_files contents hl, hb, hw]
  have hd : detect_drift env processed_files none =
      drift_report env.ks_2samp bp wp := by
    simp only [detect_drift]
    rw [if_neg (Nat.not_lt.mpr hn), hstat]
  rw [hd]
  constructor
  · simp only [drift_report, Bool.or_eq_true, decide_eq_true_eq, or_assoc]
  · rfl

/-- Witness for C2 at a concrete environment: one baseline image and 30
candidate images, every extraction succeeding. -/
theorem drift_verdict_and_score_witness :
    okEnv.baselineListing = .ok (some ["b.jpg"]) ∧
      30 ≤ (weekly_images bigBatch).length ∧
      mapME okEnv.getProps (baseline_sample okEnv ["b.jpg"] bigBatch) = .ok [p1] ∧
      mapME okEnv.getProps (weekly_images bigBatch) = .ok (List.replicate 30 p1) ∧
      (((detect_drift okEnv bigBatch none).1 = true ↔
        ((okEnv.ks_2samp ([p1].map ImageProps.brightness)
            ((List.replicate 30 p1).map ImageProps.brightness)).2 < 0.05 ∨
          (okEnv.ks_2samp ([p1].map ImageProps.contrast)
            ((List.replicate 30 p1).map ImageProps.contrast)).2 < 0.05 ∨
          (okEnv.ks_2samp ([p1].map ImageProps.r_mean)
            ((List.replicate 30 p1).map ImageProps.r_mean)).2 < 0.05 ∨
          (okEnv.ks_2samp ([p1].map ImageProps.g_mean)
            ((List.replicate 30 p1).map ImageProps.g_mean)).2 < 0.05 ∨
          (okEnv.ks_2samp ([p1].map ImageProps.b_mean)
            ((List.replicate 30 p1).map ImageProps.b_mean)).2 < 0.05)) ∧
        (detect_drift okEnv bigBatch none).2 =
          ((okEnv.ks_2samp ([p1].map ImageProps.brightness)
              ((List.replicate 30 p1).map ImageProps.brightness)).1 +
            (okEnv.ks_2samp ([p1].map ImageProps.contrast)
              ((List.replicate 30 p1).map ImageProps.contrast)).1 +
            (okEnv.ks_2samp ([p1].map ImageProps.r_mean)
              ((List.replicate 30 p1).map ImageProps.r_mean)).1 +
            (okEnv.ks_2samp ([p1].map ImageProps.g_mean)
              ((List.replicate 30 p1).map ImageProps.g_mean)).1 +
            (okEnv.ks_2samp ([p1].map ImageProps.b_mean)
              ((List.replicate 30 p1).map ImageProps.b_mean)).1) / 5) :=
  ⟨rfl, by decide, rfl, rfl,
    drift_verdict_and_score okEnv ["b.jpg"] bigBatch [p1] (List.replicate 30 p1)
      rfl (by decide) rfl rfl⟩

/-- C3: with no override and fewer than 30 candidate images, `detect_drift`
returns `(false, 0.0)`.  The environment is universally quantified, so the
result is reached without consulting the baseline listing, the sampler, the
extraction oracle or the KS test — no statistic is computed — regardless of
the candidate's content. -/
theorem drift_skip_small_sample (env : DriftEnv) (processed_files : List String)
    (h : (weekly_images processed_files).length < 30) :
    detect_drift env processed_files none = (false, 0) := by
  unfold detect_drift
  rw [if_pos h]

/-- Witness for C3: 25 candidate images. -/
theorem drift_skip_small_sample_witness :
    (weekly_images smallBatch).length < 30 ∧
      detect_drift trivialEnv smallBatch none = (false, 0) :=
  ⟨by decide, drift_skip_small_sample trivialEnv smallBatch (by decide)⟩

/-- C4: `detect_drift` returns `(true, 0.67)` whenever the override argument
is true and `(false, 0.32)` whenever it is false, for every environment and
every candidate set (including those with fewer than 30 members): the
override bypasses the statistical computation entirely. -/
theorem drift_override_constant :
    ∀ (env : DriftEnv) (processed_files : List String),
      detect_drift env processed_files (some true) = (true, 0.67) ∧
        detect_drift env processed_files (some false) = (false, 0.32) :=
  fun _ _ => ⟨rfl, rfl⟩

/-- C5: whenever any step of the statistical path raises (baseline listing,
fetching, decoding or statistic extraction for any image — i.e.
`detect_drift_stat` evaluates to an error), `detect_drift` does not
propagate the error and returns `(false, 0.0)`. -/
theorem drift_fail_safe (env : DriftEnv) (processed_files : List String) (e : String)
    (h : detect_drift_stat env processed_files = .error e) :
    detect_drift env processed_files none = (false, 0) := by
  unfold detect_drift
  by_cases hn : (weekly_images processed_files).length < 30
  · rw [if_pos hn]
  · rw [if_neg hn, h]

/-- Witness for C5: an environment whose extraction oracle always raises. -/
theorem drift_fail_safe_witness :
    detect_drift_stat failEnv bigBatch = .error "boom" ∧
      detect_drift failEnv bigBatch none = (false, 0) :=
  ⟨rfl, drift_fail_safe failEnv bigBatch "boom" rfl⟩

/-- C6: if any of the four named metrics is absent from either mapping, the
promotion gate behaves exactly as if that metric had the value `0.0` in that
mapping (and, being a total function, raises no error). -/
theorem missing_metric_defaults_to_zero (inc prod : Metrics) (k : String)
    (_hk : k ∈ gateKeys) :
    (inc k = none →
      print_and_compare_metrics inc prod = print_and_compare_metrics (setZero inc k) prod) ∧
    (prod k = none →
      print_and_compare_metrics inc prod = print_and_compare_metrics inc (setZero prod k)) := by
  constructor
  · intro h
    simp only [print_and_compare_metrics, dictGet_setZero inc k _ h]
  · intro h
    simp only [print_and_compare_metrics, dictGet_setZero prod k _ h]

/-- Witness for C6: the empty metric mapping and the key `metrics/mAP50B`. -/
theorem missing_metric_defaults_to_zero_witness :
    "metrics/mAP50B" ∈ gateKeys ∧ emptyMetrics "metrics/mAP50B" = none ∧
      print_and_compare_metrics emptyMetrics emptyMetrics =
        print_and_compare_metrics (setZero emptyMetrics "metrics/mAP50B") emptyMetrics :=
  ⟨by decide, rfl,
    (missing_metric_defaults_to_zero emptyMetrics emptyMetrics "metrics/mAP50B"
      (by decide)).1 rfl⟩

/-- C7: `get_production_run_info` surfaces an error to the caller exactly
when no registry entry of the given model name exists in the Production
stage; when at least one Production version exists it returns, without
error, the run id and version number of a Production-stage version of that
model. -/
theorem production_lookup_error_iff_missing (registry : List ModelVersion) (nm : String) :
    ((∃ e, get_production_run_info registry nm = .error e) ↔
        ¬ ∃ mv ∈ registry, mv.name = nm ∧ mv.current_stage = "Production") ∧
    (∀ rid v, get_production_run_info registry nm = .ok (rid, v) →
        ∃ mv ∈ registry, mv.name = nm ∧ mv.current_stage = "Production" ∧
          mv.run_id = rid ∧ mv.version = v) := by
  unfold get_production_run_info get_latest_versions
  rcases hf : registry.filter
      (fun mv => mv.name == nm && ["Production"].contains mv.current_stage) with _ | ⟨mv, rest⟩
  · simp only [hf]
    constructor
    · constructor
      · intro _ ⟨x, hx, hnm, hst⟩
        have : x ∈ registry.filter
            (fun mv => mv.name == nm && ["Production"].contains mv.current_stage) := by
          rw [List.mem_filter]
          refine ⟨hx, ?_⟩
          simp [hnm, hst]
        rw [hf] at this
        exact absurd this (List.not_mem_nil x)
      · intro _
        exact ⟨_, rfl⟩
    · intro rid v hv
      exact absurd hv (by simp)
  · have hmem : mv ∈ registry.filter
        (fun mv => mv.name == nm && ["Production"].contains mv.current_stage) := by
      rw [hf]; exact List.mem_cons_self mv rest
    rw [List.mem_filter] at hmem
    obtain ⟨hmv, hp⟩ := hmem
    simp only [List.contains_cons, List.contains_nil, Bool.or_false, Bool.and_eq_true,
      beq_iff_eq] at hp
    simp only [hf]
    constructor
    · constructor
      · intro ⟨e, he⟩
        exact absurd he (by simp)
      · intro h
        exact absurd ⟨mv, hmv, hp.1, hp.2⟩ h
    · intro rid v hv
      have : mv.run_id = rid ∧ mv.version = v := by
        have := Except.ok.inj hv
        exact ⟨congrArg Prod.fst this, congrArg Prod.snd this⟩
      exact ⟨mv, hmv, hp.1, hp.2, this.1, this.2⟩

/-- Witness for C7: a registry holding one Production version. -/
theorem production_lookup_error_iff_missing_witness :
    get_production_run_info prodRegistry "m" = .ok ("r1", 1) ∧
      ∃ mv ∈ prodRegistry, mv.name = "m" ∧ mv.current_stage = "Production" ∧
        mv.run_id = "r1" ∧ mv.version = 1 :=
  ⟨rfl, (production_lookup_error_iff_missing prodRegistry "m").2 "r1" 1 rfl⟩

/-- C8: for every baseline set and candidate set, the set of results
(verdict and score) `detect_drift` can produce — quantifying over the draws
the unseeded `random.sample` may make — is unchanged by any permutation of
the elements within the baseline set or within the candidate set, given
that `ks_2samp` is order-independent (it compares empirical distribution
functions, which ignore sample order). -/
theorem drift_perm_invariant (getProps : String → Except String ImageProps)
    (ks : List ℚ → List ℚ → ℚ × ℚ) (contents contents' pf pf' : List String)
    (o : Option Bool) (hks : ksPermInvariant ks)
    (hc : contents.Perm contents') (hp : pf.Perm pf') :
    driftResults (.ok (some contents)) getProps ks pf o =
      driftResults (.ok (some contents')) getProps ks pf' o :=
  Set.Subset.antisymm (driftResults_le getProps ks o hks hc hp)
    (driftResults_le getProps ks o hks hc.symm hp.symm)

/-- Witness for C8: two-element baseline and candidate sets, each swapped. -/
theorem drift_perm_invariant_witness :
    ksPermInvariant ks0 ∧ (["a.jpg", "b.jpg"] : List String).Perm ["b.jpg", "a.jpg"] ∧
      (["x/images/1", "y/images/2"] : List String).Perm ["y/images/2", "x/images/1"] ∧
      driftResults (.ok (some ["a.jpg", "b.jpg"])) gp0 ks0 ["x/images/1", "y/images/2"] none =
        driftResults (.ok (some ["b.jpg", "a.jpg"])) gp0 ks0 ["y/images/2", "x/images/1"] none :=
  ⟨fun _ _ _ _ _ _ => rfl, List.Perm.swap "b.jpg" "a.jpg" [],
    List.Perm.swap "y/images/2" "x/images/1" [],
    drift_perm_invariant gp0 ks0 _ _ _ _ none (fun _ _ _ _ _ _ => rfl)
      (List.Perm.swap "b.jpg" "a.jpg" []) (List.Perm.swap "y/images/2" "x/images/1" [])⟩

/-- C9: whenever the promotion succeeds, the trace of registry calls is
exactly the transition of the incumbent version to `Archived` followed by
the transition of the challenger version to `Production`: the archive step
always precedes the promote step. -/
theorem archive_precedes_promotion (registry : List ModelVersion)
    (incoming_run_id model_name : String) (current_prod_version : Nat) (v : Nat)
    (h : (promote_model_to_production registry incoming_run_id model_name
            current_prod_version).2 = .ok v) :
    (promote_model_to_production registry incoming_run_id model_name
        current_prod_version).1 =
      [⟨model_name, current_prod_version, "Archived", false⟩,
        ⟨model_name, v, "Production", false⟩] := by
  rcases hf : (search_model_versions registry model_name).find?
      (fun mv => mv.run_id == incoming_run_id) with _ | mv
  · simp only [promote_model_to_production, hf] at h
    exact absurd h (by simp)
  · simp only [promote_model_to_production, hf] at h ⊢
    have := Except.ok.inj h
    rw [this]

/-- Witness for C9: promoting run `r2` (version 5) over incumbent version 3. -/
theorem archive_precedes_promotion_witness :
    (promote_model_to_production promoRegistry "r2" "m" 3).2 = .ok 5 ∧
      (promote_model_to_production promoRegistry "r2" "m" 3).1 =
        [⟨"m", 3, "Archived", false⟩, ⟨"m", 5, "Production", false⟩] :=
  ⟨rfl, archive_precedes_promotion promoRegistry "r2" "m" 3 5 rfl⟩

/-- C10: if no registered version of the given model name has the incoming
run id, `promote_model_to_production` raises an error with an empty
transition trace — no stage transition is issued, so the registry state is
unchanged by the failed promotion. -/
theorem promotion_atomic_on_missing_run (registry : List ModelVersion)
    (incoming_run_id model_name : String) (current_prod_version : Nat)
    (h : ∀ mv ∈ registry, mv.name = model_name → mv.run_id ≠ incoming_run_id) :
    promote_model_to_production registry incoming_run_id model_name current_prod_version =
      ([], .error ("Could not find model version for run_id " ++ incoming_run_id)) := by
  have hf : (search_model_versions registry model_name).find?
      (fun mv => mv.run_id == incoming_run_id) = none := by
    rw [List.find?_eq_none]
    intro x hx
    rw [search_model_versions, List.mem_filter] at hx
    simp only [beq_iff_eq] at hx ⊢
    exact h x hx.1 hx.2
  simp only [promote_model_to_production, hf]

/-- Witness for C10: a run id matching no registry entry. -/
theorem promotion_atomic_on_missing_run_witness :
    (∀ mv ∈ promoRegistry, mv.name = "m" → mv.run_id ≠ "zzz") ∧
      promote_model_to_production promoRegistry "zzz" "m" 3 =
        ([], .error ("Could not find model version for run_id " ++ "zzz")) :=
  ⟨by decide, promotion_atomic_on_missing_run promoRegistry "zzz" "m" 3 (by decide)⟩
